import Mathlib

/-!
Shallow embedding of the frame-lifecycle and GPU-resource management core of
`vulkan_sprite_renderer` (`src/main.c`, `src/vkx/vkx_core.c`,
`src/vkx/vkx_swap_chain.c`).

Vulkan driver calls are modelled by their observable effects: each entry point
returns a new state together with a trace of the driver actions it performed,
and driver results (`VkResult`) are inputs.  Driver call failures that the C
code treats as fatal (`exit(1)`) are modelled by a `fatal` flag or by `Option`
results; calls the C code does not branch on are modelled as succeeding.
Handles are natural numbers with `0` playing the role of `VK_NULL_HANDLE`;
enumeration constants carry their actual Vulkan numeric values.
-/

/-- Result codes of the Vulkan calls `draw_frame` branches on: `VK_SUCCESS`,
`VK_SUBOPTIMAL_KHR` and `VK_ERROR_OUT_OF_DATE_KHR`; every other code is
collapsed into `errorOther` with its raw value. -/
inductive VkResult where
  | success
  | suboptimalKHR
  | errorOutOfDateKHR
  | errorOther (code : Int)
deriving DecidableEq

/-- Observable driver-facing actions performed by one `draw_frame` call
(`src/main.c`). -/
inductive FrameAction where
  | waitFence
  | acquireImage
  | updateUniforms
  | resetFence
  | resetCommandBuffer
  | recordCommandBuffer
  | submit
  | present
  | recreateSwapChain
deriving DecidableEq

/-- `#define VKX_FRAMES_IN_FLIGHT 2` (`include/vkx/vkx_core.h`). -/
def VKX_FRAMES_IN_FLIGHT : Nat := 2

/-- `const uint32_t SUBOPTIMAL_SWAPCHAIN_THRESHOLD = 10;` (`src/main.c`). -/
def SUBOPTIMAL_SWAPCHAIN_THRESHOLD : Nat := 10

/-- The mutable state `draw_frame` reads and writes: the globals
`current_frame`, `suboptimal_swapchain_count` and `framebuffer_resized` of
`src/main.c`, plus the signalled-state of the per-slot in-flight fences
(`vkx_sync_objects.in_flight_fences`, indexed by `current_frame`). -/
structure DrawState where
  current_frame : Nat
  suboptimal_swapchain_count : Nat
  framebuffer_resized : Bool
  fences : List Bool
deriving DecidableEq

/-- Outcome of one `draw_frame` call: whether the process exited fatally
(`exit(1)`), the state at return (or at the exit point), and the trace of
driver actions performed. -/
structure FrameResult where
  fatal : Bool
  state : DrawState
  actions : List FrameAction
deriving DecidableEq

/-- `draw_frame` (`src/main.c`): wait on the slot's in-flight fence, acquire a
swapchain image, and either skip the frame (stale surface), exit fatally, or
record/submit/present and run the present-result handling chain, finally
advancing `current_frame` modulo `VKX_FRAMES_IN_FLIGHT`.

`acquireResult` is what `vkAcquireNextImageKHR` returned, `presentResult` what
`vkQueuePresentKHR` returned (consulted only if the frame is not skipped).
`vkWaitForFences` blocks until the slot's fence is signalled, so the fence is
signalled right after it; `vkResetFences` unsignals it; after `vkQueueSubmit`
it stays unsignalled until the GPU finishes the slot's work. -/
def draw_frame (s₀ : DrawState) (acquireResult presentResult : VkResult) :
    FrameResult :=
  -- vkWaitForFences(..., &in_flight_fences[current_frame], ...)
  let s := { s₀ with fences := s₀.fences.set s₀.current_frame true }
  -- result = vkAcquireNextImageKHR(...)
  if acquireResult = VkResult.errorOutOfDateKHR then
    -- vkx_recreate_swap_chain(); return;  (fence untouched, counter untouched)
    { fatal := false
      state := s
      actions := [.waitFence, .acquireImage, .recreateSwapChain] }
  else if acquireResult ≠ VkResult.success ∧
      acquireResult ≠ VkResult.suboptimalKHR then
    -- exit(1)
    { fatal := true, state := s, actions := [.waitFence, .acquireImage] }
  else
    -- ubo update + memcpy; vkResetFences; vkResetCommandBuffer;
    -- record_command_buffer; vkQueueSubmit; vkQueuePresentKHR
    let s := { s with fences := s.fences.set s.current_frame false }
    let acts : List FrameAction :=
      [.waitFence, .acquireImage, .updateUniforms, .resetFence,
       .resetCommandBuffer, .recordCommandBuffer, .submit, .present]
    let s :=
      if presentResult = VkResult.suboptimalKHR then
        { s with suboptimal_swapchain_count := s.suboptimal_swapchain_count + 1 }
      else
        { s with suboptimal_swapchain_count := 0 }
    if s.framebuffer_resized then
      { fatal := false
        state := { s with
          framebuffer_resized := false
          current_frame := (s.current_frame + 1) % VKX_FRAMES_IN_FLIGHT }
        actions := acts ++ [.recreateSwapChain] }
    else if SUBOPTIMAL_SWAPCHAIN_THRESHOLD ≤ s.suboptimal_swapchain_count then
      { fatal := false
        state := { s with
          suboptimal_swapchain_count := 0
          current_frame := (s.current_frame + 1) % VKX_FRAMES_IN_FLIGHT }
        actions := acts ++ [.recreateSwapChain] }
    else if presentResult = VkResult.errorOutOfDateKHR then
      { fatal := false
        state := { s with
          current_frame := (s.current_frame + 1) % VKX_FRAMES_IN_FLIGHT }
        actions := acts ++ [.recreateSwapChain] }
    else if presentResult ≠ VkResult.suboptimalKHR ∧
        presentResult ≠ VkResult.success then
      -- exit(1)
      { fatal := true, state := s, actions := acts }
    else
      { fatal := false
        state := { s with
          current_frame := (s.current_frame + 1) % VKX_FRAMES_IN_FLIGHT }
        actions := acts }

/-- C1 counterexample: the claim says the frame counter advances exactly once
even when the frame is skipped because acquire returned the stale-surface
result.  At the concrete state with `current_frame = 0`, a stale acquire leaves
the counter at `0`, not at `(0 + 1) % 2 = 1` — the skip path returns before the
counter update. -/
theorem c1_stale_acquire_counter_not_advanced :
    (draw_frame ⟨0, 0, false, [true, true]⟩ VkResult.errorOutOfDateKHR
        VkResult.success).state.current_frame ≠
      (0 + 1) % VKX_FRAMES_IN_FLIGHT := by
  decide

/-- C1 (amended): `draw_frame` advances `current_frame` by one modulo
`VKX_FRAMES_IN_FLIGHT` exactly when the frame was neither skipped by a
stale-surface acquire result nor aborted by a fatal result; on the stale-acquire
skip path (and on fatal paths) the counter is left unchanged.  The skip path
still recreates the swapchain. -/
theorem c1_frame_counter_advance (s : DrawState)
    (acquireResult presentResult : VkResult) :
    (draw_frame s acquireResult presentResult).state.current_frame =
      (if acquireResult = VkResult.errorOutOfDateKHR ∨
          (draw_frame s acquireResult presentResult).fatal then
        s.current_frame
      else
        (s.current_frame + 1) % VKX_FRAMES_IN_FLIGHT) ∧
    (acquireResult = VkResult.errorOutOfDateKHR →
      FrameAction.recreateSwapChain ∈
        (draw_frame s acquireResult presentResult).actions) := by
  unfold draw_frame
  rcases acquireResult <;> rcases presentResult <;>
    simp_all <;> split_ifs <;> simp_all

/-- Witness for `c1_frame_counter_advance` at a concrete state with a stale
acquire result. -/
theorem c1_frame_counter_advance_witness :
    FrameAction.recreateSwapChain ∈
      (draw_frame ⟨0, 0, false, [true, true]⟩ VkResult.errorOutOfDateKHR
        VkResult.success).actions :=
  (c1_frame_counter_advance ⟨0, 0, false, [true, true]⟩
    VkResult.errorOutOfDateKHR VkResult.success).2 rfl

/-- C2 counterexample: the claim says the suboptimal debounce counter is zero
immediately after any swapchain recreation, including a resize-triggered one.
At the concrete state with the resize flag set and counter `0`, a suboptimal
present result increments the counter to `1` and the resize branch then
recreates the swapchain without resetting it: recreation happened, yet the
counter is `1`, not `0`. -/
theorem c2_resize_recreation_keeps_counter :
    FrameAction.recreateSwapChain ∈
      (draw_frame ⟨0, 0, true, [true, true]⟩ VkResult.success
        VkResult.suboptimalKHR).actions ∧
    (draw_frame ⟨0, 0, true, [true, true]⟩ VkResult.success
        VkResult.suboptimalKHR).state.suboptimal_swapchain_count ≠ 0 := by
  decide

/-- C2 (amended): after a completed present, the debounce counter is first
updated — incremented on a suboptimal present result, reset to zero on any
other result — and then zeroed again only by the debounce-threshold branch.
Consequently the counter is zero after a threshold-triggered or
stale-present-triggered recreation, but a resize-triggered recreation leaves
the just-updated value in place, which is nonzero when that frame's present
result was suboptimal. -/
theorem c2_suboptimal_counter (s : DrawState)
    (acquireResult presentResult : VkResult)
    (hacq : acquireResult = VkResult.success ∨
      acquireResult = VkResult.suboptimalKHR) :
    ((draw_frame s acquireResult presentResult).state.suboptimal_swapchain_count =
      (let u := if presentResult = VkResult.suboptimalKHR then
          s.suboptimal_swapchain_count + 1 else 0
       if s.framebuffer_resized = false ∧ SUBOPTIMAL_SWAPCHAIN_THRESHOLD ≤ u then
         0
       else u)) ∧
    (s.framebuffer_resized = false →
      FrameAction.recreateSwapChain ∈
        (draw_frame s acquireResult presentResult).actions →
      (draw_frame s acquireResult
        presentResult).state.suboptimal_swapchain_count = 0) := by
  unfold draw_frame
  rcases hacq with h | h <;> subst h <;> rcases presentResult <;>
    simp_all <;> split_ifs <;> simp_all

/-- Witness for `c2_suboptimal_counter` at a concrete state where a
stale-present recreation resets the counter to zero. -/
theorem c2_suboptimal_counter_witness :
    (draw_frame ⟨0, 3, false, [true, true]⟩ VkResult.success
      VkResult.errorOutOfDateKHR).state.suboptimal_swapchain_count = 0 :=
  (c2_suboptimal_counter ⟨0, 3, false, [true, true]⟩ VkResult.success
    VkResult.errorOutOfDateKHR (Or.inl rfl)).2 rfl (by decide)

/-- C3: present-result handling follows the claimed precedence after every
completed present, with threshold `SUBOPTIMAL_SWAPCHAIN_THRESHOLD = 10`:
(1) resize flag set → recreate once and clear the flag; (2) else counter at
threshold → recreate once and reset the counter; (3) else stale present →
recreate once; (4) else any result other than success/suboptimal is fatal,
and success/suboptimal trigger no recreation. -/
theorem c3_present_precedence (s : DrawState)
    (acquireResult presentResult : VkResult)
    (hacq : acquireResult = VkResult.success ∨
      acquireResult = VkResult.suboptimalKHR) :
    SUBOPTIMAL_SWAPCHAIN_THRESHOLD = 10 ∧
    (let r := draw_frame s acquireResult presentResult
     let u := if presentResult = VkResult.suboptimalKHR then
        s.suboptimal_swapchain_count + 1 else 0
     (s.framebuffer_resized = true →
        r.fatal = false ∧ r.actions.count FrameAction.recreateSwapChain = 1 ∧
        r.state.framebuffer_resized = false) ∧
     (s.framebuffer_resized = false → SUBOPTIMAL_SWAPCHAIN_THRESHOLD ≤ u →
        r.fatal = false ∧ r.actions.count FrameAction.recreateSwapChain = 1 ∧
        r.state.suboptimal_swapchain_count = 0) ∧
     (s.framebuffer_resized = false → u < SUBOPTIMAL_SWAPCHAIN_THRESHOLD →
        presentResult = VkResult.errorOutOfDateKHR →
        r.fatal = false ∧ r.actions.count FrameAction.recreateSwapChain = 1) ∧
     (s.framebuffer_resized = false → u < SUBOPTIMAL_SWAPCHAIN_THRESHOLD →
        presentResult ≠ VkResult.errorOutOfDateKHR →
        presentResult ≠ VkResult.success →
        presentResult ≠ VkResult.suboptimalKHR →
        r.fatal = true) ∧
     (s.framebuffer_resized = false → u < SUBOPTIMAL_SWAPCHAIN_THRESHOLD →
        (presentResult = VkResult.success ∨
          presentResult = VkResult.suboptimalKHR) →
        r.fatal = false ∧
        r.actions.count FrameAction.recreateSwapChain = 0)) := by
  refine ⟨rfl, ?_⟩
  unfold draw_frame
  rcases hacq with h | h <;> subst h <;> rcases presentResult <;>
    simp_all <;> split_ifs <;> simp_all

/-- Witness for `c3_present_precedence` at a concrete state exercising the
resize branch. -/
theorem c3_present_precedence_witness :
    (draw_frame ⟨0, 0, true, [true, true]⟩ VkResult.success
        VkResult.success).fatal = false ∧
    (draw_frame ⟨0, 0, true, [true, true]⟩ VkResult.success
        VkResult.success).actions.count FrameAction.recreateSwapChain = 1 ∧
    (draw_frame ⟨0, 0, true, [true, true]⟩ VkResult.success
        VkResult.success).state.framebuffer_resized = false :=
  ((c3_present_precedence ⟨0, 0, true, [true, true]⟩ VkResult.success
    VkResult.success (Or.inl rfl)).2).1 rfl

/-- C4: on a stale-surface acquire result `draw_frame` skips recording,
submission and presentation entirely, recreates the swapchain, does not reset
the slot's in-flight fence (which is signalled after the initial fence wait,
so it is left signalled), and is not fatal; in every execution the number of
fence resets equals the number of submissions; any acquire result other than
success/suboptimal/stale is fatal; a suboptimal acquire proceeds with
recording, submission and presentation normally. -/
theorem c4_acquire_handling (s : DrawState) (presentResult : VkResult)
    (hlen : s.current_frame < s.fences.length) :
    ((draw_frame s VkResult.errorOutOfDateKHR presentResult).fatal = false ∧
     (draw_frame s VkResult.errorOutOfDateKHR presentResult).actions.count
        FrameAction.recreateSwapChain = 1 ∧
     (draw_frame s VkResult.errorOutOfDateKHR presentResult).actions.count
        FrameAction.recordCommandBuffer = 0 ∧
     (draw_frame s VkResult.errorOutOfDateKHR presentResult).actions.count
        FrameAction.submit = 0 ∧
     (draw_frame s VkResult.errorOutOfDateKHR presentResult).actions.count
        FrameAction.present = 0 ∧
     (draw_frame s VkResult.errorOutOfDateKHR presentResult).actions.count
        FrameAction.resetFence = 0 ∧
     (draw_frame s VkResult.errorOutOfDateKHR
        presentResult).state.fences.getD s.current_frame false = true) ∧
    (∀ acquireResult : VkResult,
      (draw_frame s acquireResult presentResult).actions.count
          FrameAction.resetFence =
        (draw_frame s acquireResult presentResult).actions.count
          FrameAction.submit) ∧
    (∀ code : Int,
      (draw_frame s (VkResult.errorOther code) presentResult).fatal = true) ∧
    ((draw_frame s VkResult.suboptimalKHR presentResult).actions.count
        FrameAction.recordCommandBuffer = 1 ∧
     (draw_frame s VkResult.suboptimalKHR presentResult).actions.count
        FrameAction.submit = 1 ∧
     (draw_frame s VkResult.suboptimalKHR presentResult).actions.count
        FrameAction.present = 1) := by
  refine ⟨?_, ?_, ?_, ?_⟩
  · unfold draw_frame
    simp [List.getD_eq_getElem?_getD, List.getElem?_set_self hlen]
  · intro acquireResult
    unfold draw_frame
    rcases acquireResult <;> rcases presentResult <;>
      simp_all <;> split_ifs <;> simp_all
  · intro code
    unfold draw_frame
    simp
  · unfold draw_frame
    rcases presentResult <;> simp_all <;> split_ifs <;> simp_all

/-- Witness for `c4_acquire_handling` at a concrete state. -/
theorem c4_acquire_handling_witness :
    (draw_frame ⟨0, 0, false, [true, true]⟩ VkResult.errorOutOfDateKHR
        VkResult.success).state.fences.getD 0 false = true :=
  ((c4_acquire_handling ⟨0, 0, false, [true, true]⟩ VkResult.success
    (by decide)).1).2.2.2.2.2.2

/-! ## Memory-type selection (`vkx_find_memory_type`, `src/vkx/vkx_core.c`) -/

/-- The loop body condition of `vkx_find_memory_type`: bit `i` of `type_filter`
is set and the memory type's `propertyFlags` are a superset of the requested
`properties` (`(flags & properties) == properties`).  A memory type is
represented by its `propertyFlags` bitmask. -/
def memTypeSuitable (type_filter properties : Nat) (i : Nat)
    (flags : Nat) : Prop :=
  type_filter &&& (1 <<< i) ≠ 0 ∧ flags &&& properties = properties

instance (type_filter properties i flags : Nat) :
    Decidable (memTypeSuitable type_filter properties i flags) := by
  unfold memTypeSuitable; infer_instance

/-- The loop of `vkx_find_memory_type`, scanning memory types from index `i`
upward. -/
def vkx_find_memory_type_go (type_filter properties : Nat) :
    Nat → List Nat → Option Nat
  | _, [] => none
  | i, flags :: rest =>
    if type_filter &&& (1 <<< i) ≠ 0 ∧ flags &&& properties = properties then
      some i
    else
      vkx_find_memory_type_go type_filter properties (i + 1) rest

/-- `vkx_find_memory_type` (`src/vkx/vkx_core.c`): scan the device's memory
types from index `0` and return the first whose bit is set in `type_filter`
and whose property flags contain `properties`; `none` models the fatal
"failed to find suitable memory type!" exit. -/
def vkx_find_memory_type (memoryTypes : List Nat)
    (type_filter properties : Nat) : Option Nat :=
  vkx_find_memory_type_go type_filter properties 0 memoryTypes

/-- Unfolding lemma for one loop iteration, phrased with the named loop
condition. -/
theorem vkx_find_memory_type_go_cons (type_filter properties i flags : Nat)
    (rest : List Nat) :
    vkx_find_memory_type_go type_filter properties i (flags :: rest) =
      if memTypeSuitable type_filter properties i flags then some i
      else vkx_find_memory_type_go type_filter properties (i + 1) rest := by
  by_cases h : memTypeSuitable type_filter properties i flags
  · rw [if_pos h]
    rw [memTypeSuitable] at h
    simp [vkx_find_memory_type_go, h]
  · rw [if_neg h]
    rw [memTypeSuitable] at h
    simp only [vkx_find_memory_type_go, if_neg h]

/-- The scan starting at `i` returns `none` exactly when no scanned entry is
suitable. -/
theorem vkx_find_memory_type_go_eq_none (type_filter properties : Nat)
    (l : List Nat) (i : Nat) :
    vkx_find_memory_type_go type_filter properties i l = none ↔
      ∀ k, k < l.length →
        ¬ memTypeSuitable type_filter properties (i + k) (l.getD k 0) := by
  induction l generalizing i with
  | nil => simp [vkx_find_memory_type_go]
  | cons flags rest ih =>
    rw [vkx_find_memory_type_go_cons]
    by_cases h : memTypeSuitable type_filter properties i flags
    · rw [if_pos h]
      constructor
      · intro hcontra
        exact absurd hcontra (by simp)
      · intro hall
        have h0 := hall 0 (by simp)
        rw [Nat.add_zero, List.getD_cons_zero] at h0
        exact absurd h h0
    · rw [if_neg h, ih]
      constructor
      · intro hall k hk
        cases k with
        | zero =>
          rw [Nat.add_zero, List.getD_cons_zero]
          exact h
        | succ k =>
          have hk' : k < rest.length := by
            simpa using Nat.lt_of_succ_lt_succ hk
          have harith : i + (k + 1) = (i + 1) + k := by omega
          rw [List.getD_cons_succ, harith]
          exact hall k hk'
      · intro hall k hk
        have := hall (k + 1) (by simpa using Nat.succ_lt_succ hk)
        have harith : i + (k + 1) = (i + 1) + k := by omega
        rw [List.getD_cons_succ, harith] at this
        exact this

/-- If the scan starting at `i` returns index `j` then `j` is the least
suitable index at or above `i`, and it lies within the scanned range. -/
theorem vkx_find_memory_type_go_eq_some (type_filter properties : Nat)
    (l : List Nat) (i j : Nat)
    (h : vkx_find_memory_type_go type_filter properties i l = some j) :
    i ≤ j ∧ j - i < l.length ∧
      memTypeSuitable type_filter properties j (l.getD (j - i) 0) ∧
      ∀ m, i ≤ m → m < j →
        ¬ memTypeSuitable type_filter properties m (l.getD (m - i) 0) := by
  induction l generalizing i with
  | nil => simp [vkx_find_memory_type_go] at h
  | cons flags rest ih =>
    rw [vkx_find_memory_type_go_cons] at h
    by_cases hs : memTypeSuitable type_filter properties i flags
    · rw [if_pos hs] at h
      have hj : j = i := (Option.some_inj.mp h).symm
      subst hj
      refine ⟨le_refl _, by simp, ?_, ?_⟩
      · rw [Nat.sub_self, List.getD_cons_zero]
        exact hs
      · intro m him hmj
        exact absurd (lt_of_le_of_lt him hmj) (lt_irrefl _)
    · rw [if_neg hs] at h
      obtain ⟨hij, hlen, hsuit, hmin⟩ := ih (i + 1) h
      refine ⟨by omega, ?_, ?_, ?_⟩
      · simp only [List.length_cons]
        omega
      · have harith : j - i = (j - (i + 1)) + 1 := by omega
        rw [harith, List.getD_cons_succ]
        exact hsuit
      · intro m him hmj
        rcases Nat.eq_or_lt_of_le him with heq | hlt
        · rw [← heq, Nat.sub_self, List.getD_cons_zero]
          exact hs
        · have harith : m - i = (m - (i + 1)) + 1 := by omega
          rw [harith, List.getD_cons_succ]
          exact hmin m hlt hmj

/-- C5: for every memory-type table, type-filter bitmask and requested
property flags, if some index has its filter bit set and property flags that
contain the request, `vkx_find_memory_type` returns the lowest such index;
if no index qualifies it returns `none` (the fatal "no suitable memory type"
exit). -/
theorem c5_find_memory_type (memoryTypes : List Nat)
    (type_filter properties : Nat) :
    ((∃ i, i < memoryTypes.length ∧
        memTypeSuitable type_filter properties i (memoryTypes.getD i 0)) →
      ∃ j, vkx_find_memory_type memoryTypes type_filter properties = some j ∧
        j < memoryTypes.length ∧
        memTypeSuitable type_filter properties j (memoryTypes.getD j 0) ∧
        ∀ k, k < j →
          ¬ memTypeSuitable type_filter properties k (memoryTypes.getD k 0)) ∧
    ((∀ i, i < memoryTypes.length →
        ¬ memTypeSuitable type_filter properties i (memoryTypes.getD i 0)) →
      vkx_find_memory_type memoryTypes type_filter properties = none) := by
  constructor
  · intro hex
    rcases hres : vkx_find_memory_type memoryTypes type_filter properties with
      _ | j
    · rw [vkx_find_memory_type,
        vkx_find_memory_type_go_eq_none type_filter properties memoryTypes 0]
        at hres
      obtain ⟨i, hi, hsuit⟩ := hex
      exact absurd hsuit (by simpa using hres i hi)
    · obtain ⟨_, hlen, hsuit, hmin⟩ :=
        vkx_find_memory_type_go_eq_some type_filter properties memoryTypes 0 j
          hres
      refine ⟨j, rfl, by simpa using hlen, by simpa using hsuit, ?_⟩
      intro k hk
      simpa using hmin k (Nat.zero_le k) hk
  · intro hall
    rw [vkx_find_memory_type,
      vkx_find_memory_type_go_eq_none type_filter properties memoryTypes 0]
    intro k hk
    simpa using hall k hk

/-- Witness for `c5_find_memory_type`: table `[0x1, 0x7, 0x7]`, filter `0b110`,
requested properties `0x6`: index 0 is masked out by its flags, index 1 is the
lowest match. -/
theorem c5_find_memory_type_witness :
    vkx_find_memory_type [1, 7, 7] 6 6 = some 1 := by
  obtain ⟨j, hres, hjlen, hsuit, hmin⟩ :=
    (c5_find_memory_type [1, 7, 7] 6 6).1
      ⟨1, by decide, by rw [memTypeSuitable]; decide⟩
  have hlen3 : j < 3 := by simpa using hjlen
  interval_cases j
  · exact absurd hsuit (by rw [List.getD_cons_zero, memTypeSuitable]; decide)
  · exact hres
  · exact absurd (show memTypeSuitable 6 6 1 ([1, 7, 7].getD 1 0) by
      rw [memTypeSuitable]; decide) (hmin 1 (by decide))

/-! ## Swapchain creation and recreation (`src/vkx/vkx_swap_chain.c`) -/

/-- `VkSurfaceFormatKHR`: a format / color-space pair.  Enumeration values are
the raw Vulkan ones. -/
structure VkSurfaceFormatKHR where
  format : Nat
  colorSpace : Nat
deriving DecidableEq

/-- `VK_FORMAT_B8G8R8A8_SRGB = 50`. -/
def VK_FORMAT_B8G8R8A8_SRGB : Nat := 50

/-- `VK_COLOR_SPACE_SRGB_NONLINEAR_KHR = 0`. -/
def VK_COLOR_SPACE_SRGB_NONLINEAR_KHR : Nat := 0

/-- `VK_PRESENT_MODE_MAILBOX_KHR = 1`. -/
def VK_PRESENT_MODE_MAILBOX_KHR : Nat := 1

/-- `VK_PRESENT_MODE_FIFO_KHR = 2`. -/
def VK_PRESENT_MODE_FIFO_KHR : Nat := 2

/-- Surface-capabilities snapshot: the fields of `VkSurfaceCapabilitiesKHR`
that `vkx_create_swap_chain` and `vkx_choose_swap_extent` read. -/
structure VkSurfaceCapabilitiesKHR where
  minImageCount : Nat
  maxImageCount : Nat
  currentExtentWidth : Nat
  currentExtentHeight : Nat
  minImageExtentWidth : Nat
  minImageExtentHeight : Nat
  maxImageExtentWidth : Nat
  maxImageExtentHeight : Nat
deriving DecidableEq

/-- `VkxSwapChainSupportDetails` (`include/vkx/vkx_core.h`): capabilities plus
the ordered format and present-mode lists returned by the driver. -/
structure VkxSwapChainSupportDetails where
  capabilities : VkSurfaceCapabilitiesKHR
  formats : List VkSurfaceFormatKHR
  present_modes : List Nat
deriving DecidableEq

/-- The format-selection loop of `vkx_create_swap_chain`: start from
`formats[0]` and replace it with the first `B8G8R8A8_SRGB` +
`SRGB_NONLINEAR` entry, breaking at the first match.  `none` corresponds to
the fatal "no formats" exit taken before the loop when the list is empty. -/
def choose_surface_format : List VkSurfaceFormatKHR →
    Option VkSurfaceFormatKHR
  | [] => none
  | f₀ :: rest =>
    some (match (f₀ :: rest).find? (fun f =>
        f.format = VK_FORMAT_B8G8R8A8_SRGB &&
        f.colorSpace = VK_COLOR_SPACE_SRGB_NONLINEAR_KHR) with
      | some f => f
      | none => f₀)

/-- The present-mode-selection loop of `vkx_create_swap_chain`: start from
`VK_PRESENT_MODE_FIFO_KHR` and replace it with the first
`VK_PRESENT_MODE_MAILBOX_KHR` entry, breaking at the first match. -/
def choose_present_mode (present_modes : List Nat) : Nat :=
  match present_modes.find? (fun m => m = VK_PRESENT_MODE_MAILBOX_KHR) with
  | some m => m
  | none => VK_PRESENT_MODE_FIFO_KHR

/-- `vkx_choose_swap_extent` (`src/vkx/vkx_swap_chain.c`): if the surface
reports a fixed `currentExtent` (width not `0xFFFFFFFF`) use it verbatim,
otherwise take the window's client size clamped component-wise into
`[minImageExtent, maxImageExtent]`. -/
def vkx_choose_swap_extent (windowWidth windowHeight : Nat)
    (capabilities : VkSurfaceCapabilitiesKHR) : Nat × Nat :=
  if capabilities.currentExtentWidth ≠ 0xFFFFFFFF then
    (capabilities.currentExtentWidth, capabilities.currentExtentHeight)
  else
    let w :=
      if windowWidth < capabilities.minImageExtentWidth then
        capabilities.minImageExtentWidth
      else if windowWidth > capabilities.maxImageExtentWidth then
        capabilities.maxImageExtentWidth
      else windowWidth
    let h :=
      if windowHeight < capabilities.minImageExtentHeight then
        capabilities.minImageExtentHeight
      else if windowHeight > capabilities.maxImageExtentHeight then
        capabilities.maxImageExtentHeight
      else windowHeight
    (w, h)

/-- The requested image count of `vkx_create_swap_chain`:
`minImageCount + 1` (32-bit arithmetic), lowered to `maxImageCount` when a
nonzero maximum is reported and exceeded. -/
def choose_image_count (capabilities : VkSurfaceCapabilitiesKHR) : Nat :=
  let image_count := (capabilities.minImageCount + 1) % 2 ^ 32
  if capabilities.maxImageCount > 0 ∧
      image_count > capabilities.maxImageCount then
    capabilities.maxImageCount
  else
    image_count

/-- The observable fields of the global `vkx_swap_chain` struct
(`VkxSwapChain`, `include/vkx/vkx_core.h`): handle validity stands in for the
raw driver handles, `images_count` is the driver-reported image count
(`vkGetSwapchainImagesKHR`), and the image-view array is kept as its length. -/
structure VkxSwapChain where
  swap_chain_valid : Bool
  images_count : Nat
  image_views_count : Nat
  image_format : Nat
  extentWidth : Nat
  extentHeight : Nat
  has_depth_image : Bool
  depth_image_valid : Bool
deriving DecidableEq

/-- The environment a swapchain (re)creation runs against: the current surface
support snapshot, the window client size, and the driver's response to
`vkGetSwapchainImagesKHR` as a function of the requested minimum image
count. -/
structure SwapChainEnv where
  support : VkxSwapChainSupportDetails
  windowWidth : Nat
  windowHeight : Nat
  driverImageCount : Nat → Nat

/-- `vkx_create_swap_chain` (`src/vkx/vkx_swap_chain.c`) as a state
transformer on the global `vkx_swap_chain` struct: choose format, present
mode, extent and image count from the current surface support, create the
swapchain, fetch the images, create one view per image, and create the depth
image when requested.  `none` models the fatal exits for an empty format or
present-mode list.  The old struct value is taken as input because the C code
mutates the global in place. -/
def vkx_create_swap_chain (env : SwapChainEnv) (create_depth_image : Bool)
    (old : VkxSwapChain) : Option VkxSwapChain :=
  if env.support.formats.length = 0 then none
  else if env.support.present_modes.length = 0 then none
  else
    match choose_surface_format env.support.formats with
    | none => none
    | some surface_format =>
      let extent :=
        vkx_choose_swap_extent env.windowWidth env.windowHeight
          env.support.capabilities
      let image_count := choose_image_count env.support.capabilities
      let images_count := env.driverImageCount image_count
      some { old with
        swap_chain_valid := true
        extentWidth := extent.1
        extentHeight := extent.2
        images_count := images_count
        image_views_count := images_count
        image_format := surface_format.format
        has_depth_image := create_depth_image
        depth_image_valid :=
          if create_depth_image then true else old.depth_image_valid }

/-- `vkx_cleanup_swap_chain` (`src/vkx/vkx_swap_chain.c`): destroy the depth
image if one was requested (resetting its handles), destroy every image view,
free the arrays and zero `images_count`, and destroy the swapchain.
`image_format`, `extent` and `has_depth_image` are left untouched. -/
def vkx_cleanup_swap_chain (s : VkxSwapChain) : VkxSwapChain :=
  { s with
    depth_image_valid := if s.has_depth_image then false else s.depth_image_valid
    image_views_count := 0
    images_count := 0
    swap_chain_valid := false }

/-- The driver-facing phases of `vkx_recreate_swap_chain`, in call order. -/
inductive RecreateAction where
  | deviceWaitIdle
  | cleanupSwapChain
  | createSwapChain
deriving DecidableEq

/-- `vkx_recreate_swap_chain` (`src/vkx/vkx_swap_chain.c`):
`vkDeviceWaitIdle`, then `vkx_cleanup_swap_chain`, then
`vkx_create_swap_chain(vkx_swap_chain.has_depth_image)` — the depth setting
read back from the global struct after cleanup. -/
def vkx_recreate_swap_chain (env : SwapChainEnv) (s : VkxSwapChain) :
    Option VkxSwapChain × List RecreateAction :=
  let cleaned := vkx_cleanup_swap_chain s
  (vkx_create_swap_chain env cleaned.has_depth_image cleaned,
   [.deviceWaitIdle, .cleanupSwapChain, .createSwapChain])

/-- C6: for every non-empty supported-format list, swapchain creation chooses
the `B8G8R8A8_SRGB` + `SRGB_NONLINEAR` pair when it appears anywhere in the
list and the format at index 0 otherwise; and it chooses `MAILBOX` when that
mode appears anywhere in the present-mode list and `FIFO` otherwise. -/
theorem c6_format_and_present_mode_choice
    (formats : List VkSurfaceFormatKHR) (present_modes : List Nat)
    (hf : formats ≠ []) :
    ((⟨VK_FORMAT_B8G8R8A8_SRGB, VK_COLOR_SPACE_SRGB_NONLINEAR_KHR⟩ :
        VkSurfaceFormatKHR) ∈ formats →
      choose_surface_format formats =
        some ⟨VK_FORMAT_B8G8R8A8_SRGB, VK_COLOR_SPACE_SRGB_NONLINEAR_KHR⟩) ∧
    ((⟨VK_FORMAT_B8G8R8A8_SRGB, VK_COLOR_SPACE_SRGB_NONLINEAR_KHR⟩ :
        VkSurfaceFormatKHR) ∉ formats →
      choose_surface_format formats = some (formats.head hf)) ∧
    (VK_PRESENT_MODE_MAILBOX_KHR ∈ present_modes →
      choose_present_mode present_modes = VK_PRESENT_MODE_MAILBOX_KHR) ∧
    (VK_PRESENT_MODE_MAILBOX_KHR ∉ present_modes →
      choose_present_mode present_modes = VK_PRESENT_MODE_FIFO_KHR) := by
  have hpred : ∀ f : VkSurfaceFormatKHR,
      (f.format = VK_FORMAT_B8G8R8A8_SRGB &&
        f.colorSpace = VK_COLOR_SPACE_SRGB_NONLINEAR_KHR) = true ↔
      f = ⟨VK_FORMAT_B8G8R8A8_SRGB, VK_COLOR_SPACE_SRGB_NONLINEAR_KHR⟩ := by
    intro f
    cases f
    simp [VkSurfaceFormatKHR.mk.injEq]
  refine ⟨?_, ?_, ?_, ?_⟩
  · intro hmem
    rcases formats with _ | ⟨f₀, rest⟩
    · exact absurd rfl hf
    · rw [choose_surface_format]
      have hsome : ((f₀ :: rest).find? (fun f =>
          f.format = VK_FORMAT_B8G8R8A8_SRGB &&
          f.colorSpace = VK_COLOR_SPACE_SRGB_NONLINEAR_KHR)).isSome := by
        rw [List.find?_isSome]
        exact ⟨_, hmem, (hpred _).mpr rfl⟩
      obtain ⟨f, hfind⟩ := Option.isSome_iff_exists.mp hsome
      have hpf := List.find?_some hfind
      rw [hfind, (hpred f).mp (by simpa using hpf)]
  · intro hnot
    rcases formats with _ | ⟨f₀, rest⟩
    · exact absurd rfl hf
    · rw [choose_surface_format]
      have hnone : (f₀ :: rest).find? (fun f =>
          f.format = VK_FORMAT_B8G8R8A8_SRGB &&
          f.colorSpace = VK_COLOR_SPACE_SRGB_NONLINEAR_KHR) = none := by
        rw [List.find?_eq_none]
        intro f hf'
        rw [Bool.not_eq_true]
        rcases hb : (f.format = VK_FORMAT_B8G8R8A8_SRGB &&
            f.colorSpace = VK_COLOR_SPACE_SRGB_NONLINEAR_KHR) with _ | _
        · rfl
        · exact absurd (((hpred f).mp hb) ▸ hf') hnot
      rw [hnone]
      rfl
  · intro hmem
    rw [choose_present_mode]
    have hsome : (present_modes.find? (fun m =>
        m = VK_PRESENT_MODE_MAILBOX_KHR)).isSome := by
      rw [List.find?_isSome]
      exact ⟨_, hmem, by simp⟩
    obtain ⟨m, hfind⟩ := Option.isSome_iff_exists.mp hsome
    have hm : m = VK_PRESENT_MODE_MAILBOX_KHR := by
      simpa using List.find?_some hfind
    rw [hfind, hm]
  · intro hnot
    rw [choose_present_mode]
    have hnone : present_modes.find? (fun m =>
        m = VK_PRESENT_MODE_MAILBOX_KHR) = none := by
      rw [List.find?_eq_none]
      intro m hm
      simp only [Bool.not_eq_true, decide_eq_false_iff_not]
      intro heq
      exact hnot (heq ▸ hm)
    rw [hnone]

/-- Witness for `c6_format_and_present_mode_choice`: the spec scenario with
formats `[{B8G8R8A8_SRGB, SRGB_NONLINEAR}, {R8G8B8A8_UNORM, SRGB_NONLINEAR}]`
(`VK_FORMAT_R8G8B8A8_UNORM = 37`) and present modes `[FIFO, MAILBOX]`. -/
theorem c6_format_and_present_mode_choice_witness :
    choose_surface_format [⟨50, 0⟩, ⟨37, 0⟩] = some ⟨50, 0⟩ ∧
    choose_present_mode [2, 1] = 1 := by
  have h := c6_format_and_present_mode_choice [⟨50, 0⟩, ⟨37, 0⟩] [2, 1]
    (by decide)
  exact ⟨h.1 (by rw [VK_FORMAT_B8G8R8A8_SRGB,
      VK_COLOR_SPACE_SRGB_NONLINEAR_KHR]; decide),
    h.2.2.1 (by rw [VK_PRESENT_MODE_MAILBOX_KHR]; decide)⟩

/-- C7: the requested image count is `minImageCount + 1`, lowered to
`maxImageCount` exactly when the reported maximum is nonzero and exceeded; a
zero maximum means no clamp is applied.  The hypothesis excludes 32-bit
wrap-around of `minImageCount + 1`, which cannot occur for a well-formed
driver report. -/
theorem c7_image_count (capabilities : VkSurfaceCapabilitiesKHR)
    (h : capabilities.minImageCount + 1 < 2 ^ 32) :
    choose_image_count capabilities =
      if capabilities.maxImageCount = 0 then capabilities.minImageCount + 1
      else min (capabilities.minImageCount + 1) capabilities.maxImageCount := by
  rw [choose_image_count]
  simp only [Nat.mod_eq_of_lt h, min_def]
  split_ifs <;> omega

/-- Witness for `c7_image_count`: the spec scenario `min=2, max=0 → 3`
(unbounded, no clamp). -/
theorem c7_image_count_witness :
    choose_image_count ⟨2, 0, 800, 600, 1, 1, 4096, 4096⟩ = 3 := by
  rw [c7_image_count ⟨2, 0, 800, 600, 1, 1, 4096, 4096⟩ (by norm_num)]
  decide

/-- Characterisation of a successful `vkx_create_swap_chain`: the produced
struct records the requested depth setting, the extent and image count
computed from the environment, and the format chosen by the selection loop. -/
theorem vkx_create_swap_chain_spec (env : SwapChainEnv)
    (create_depth_image : Bool) (old r : VkxSwapChain)
    (h : vkx_create_swap_chain env create_depth_image old = some r) :
    r.has_depth_image = create_depth_image ∧
    r.extentWidth = (vkx_choose_swap_extent env.windowWidth env.windowHeight
      env.support.capabilities).1 ∧
    r.extentHeight = (vkx_choose_swap_extent env.windowWidth env.windowHeight
      env.support.capabilities).2 ∧
    r.images_count =
      env.driverImageCount (choose_image_count env.support.capabilities) ∧
    ∃ sf, choose_surface_format env.support.formats = some sf ∧
      r.image_format = sf.format := by
  rw [vkx_create_swap_chain] at h
  by_cases h₁ : env.support.formats.length = 0
  · rw [if_pos h₁] at h
    exact absurd h (by simp)
  rw [if_neg h₁] at h
  by_cases h₂ : env.support.present_modes.length = 0
  · rw [if_pos h₂] at h
    exact absurd h (by simp)
  rw [if_neg h₂] at h
  rcases hcf : choose_surface_format env.support.formats with _ | sf <;>
    rw [hcf] at h
  · exact absurd h (by simp)
  · simp only [Option.some_inj] at h
    subst h
    exact ⟨rfl, rfl, rfl, rfl, sf, rfl, rfl⟩

set_option linter.unusedVariables false in

/-- C8: `vkx_recreate_swap_chain` performs exactly device-idle wait, teardown,
creation, in that order; the creation runs with the depth setting preserved
from the original creation (cleanup leaves `has_depth_image` untouched); and
the resulting extent, format and image count depend only on the current
environment — two recreations from arbitrary prior swapchain states agree on
them. -/
theorem c8_recreate_idempotent (env : SwapChainEnv) (s₁ s₂ : VkxSwapChain)
    (hdepth : s₁.has_depth_image = s₂.has_depth_image) :
    (vkx_recreate_swap_chain env s₁).2 =
      [RecreateAction.deviceWaitIdle, RecreateAction.cleanupSwapChain,
       RecreateAction.createSwapChain] ∧
    (∀ r₁, (vkx_recreate_swap_chain env s₁).1 = some r₁ →
      r₁.has_depth_image = s₁.has_depth_image) ∧
    (∀ r₁ r₂, (vkx_recreate_swap_chain env s₁).1 = some r₁ →
      (vkx_recreate_swap_chain env s₂).1 = some r₂ →
      r₁.extentWidth = r₂.extentWidth ∧
      r₁.extentHeight = r₂.extentHeight ∧
      r₁.image_format = r₂.image_format ∧
      r₁.images_count = r₂.images_count) := by
  refine ⟨rfl, ?_, ?_⟩
  · intro r₁ h₁
    simp only [vkx_recreate_swap_chain] at h₁
    exact (vkx_create_swap_chain_spec _ _ _ _ h₁).1
  · intro r₁ r₂ h₁ h₂
    simp only [vkx_recreate_swap_chain] at h₁ h₂
    obtain ⟨-, hw₁, hh₁, hc₁, sf₁, hsf₁, hfmt₁⟩ :=
      vkx_create_swap_chain_spec _ _ _ _ h₁
    obtain ⟨-, hw₂, hh₂, hc₂, sf₂, hsf₂, hfmt₂⟩ :=
      vkx_create_swap_chain_spec _ _ _ _ h₂
    have hsf : sf₁ = sf₂ := by
      rw [hsf₁] at hsf₂
      exact Option.some_inj.mp hsf₂
    exact ⟨hw₁.trans hw₂.symm, hh₁.trans hh₂.symm,
      by rw [hfmt₁, hfmt₂, hsf], hc₁.trans hc₂.symm⟩

/-- Witness for `c8_recreate_idempotent`: two different prior swapchain states
recreated against the same environment. -/
theorem c8_recreate_idempotent_witness :
    (vkx_recreate_swap_chain
        ⟨⟨⟨2, 0, 800, 600, 1, 1, 4096, 4096⟩, [⟨50, 0⟩], [2]⟩, 800, 600,
          fun n => n⟩
        ⟨true, 3, 3, 50, 640, 480, true, true⟩).2 =
      [RecreateAction.deviceWaitIdle, RecreateAction.cleanupSwapChain,
       RecreateAction.createSwapChain] :=
  (c8_recreate_idempotent
    ⟨⟨⟨2, 0, 800, 600, 1, 1, 4096, 4096⟩, [⟨50, 0⟩], [2]⟩, 800, 600,
      fun n => n⟩
    ⟨true, 3, 3, 50, 640, 480, true, true⟩
    ⟨false, 0, 0, 50, 800, 600, true, false⟩ rfl).1

/-! ## Managed buffer / image cleanup (`src/vkx/vkx_core.c`) -/

/-- `VK_NULL_HANDLE`. -/
def VK_NULL_HANDLE : Nat := 0

/-- `VkxBuffer` (`include/vkx/vkx_core.h`): buffer handle plus backing
device-memory handle.  Handles are naturals, `0` = `VK_NULL_HANDLE`. -/
structure VkxBuffer where
  buffer : Nat
  memory : Nat
deriving DecidableEq

/-- `VkxImage` (`include/vkx/vkx_core.h`): image handle, backing memory
handle, and optional view handle (`VK_NULL_HANDLE` when absent). -/
structure VkxImage where
  image : Nat
  memory : Nat
  view : Nat
deriving DecidableEq

/-- Driver-facing destruction calls issued by the cleanup helpers. -/
inductive CleanupAction where
  | destroyBuffer (handle : Nat)
  | freeMemory (handle : Nat)
  | destroyImageView (handle : Nat)
  | destroyImage (handle : Nat)
deriving DecidableEq

/-- `vkx_cleanup_buffer` (`src/vkx/vkx_core.c`): destroy the buffer, free its
memory, and reset both handle fields to `VK_NULL_HANDLE`. -/
def vkx_cleanup_buffer (b : VkxBuffer) : VkxBuffer × List CleanupAction :=
  ({ buffer := VK_NULL_HANDLE, memory := VK_NULL_HANDLE },
   [CleanupAction.destroyBuffer b.buffer, CleanupAction.freeMemory b.memory])

/-- `vkx_cleanup_image` (`src/vkx/vkx_core.c`): destroy the view only when it
is present, destroy the image, free its memory, and reset all three handle
fields to `VK_NULL_HANDLE`. -/
def vkx_cleanup_image (img : VkxImage) : VkxImage × List CleanupAction :=
  let view_actions :=
    if img.view ≠ VK_NULL_HANDLE then
      [CleanupAction.destroyImageView img.view]
    else []
  ({ image := VK_NULL_HANDLE, memory := VK_NULL_HANDLE,
     view := VK_NULL_HANDLE },
   view_actions ++
     [CleanupAction.destroyImage img.image,
      CleanupAction.freeMemory img.memory])

/-- C9: for every managed buffer and image, cleanup destroys the object and
its backing memory together and resets every handle field to
`VK_NULL_HANDLE`; for images the view is destroyed exactly when it is
present. -/
theorem c9_cleanup_resets_handles (b : VkxBuffer) (img : VkxImage) :
    (vkx_cleanup_buffer b).1.buffer = VK_NULL_HANDLE ∧
    (vkx_cleanup_buffer b).1.memory = VK_NULL_HANDLE ∧
    CleanupAction.destroyBuffer b.buffer ∈ (vkx_cleanup_buffer b).2 ∧
    CleanupAction.freeMemory b.memory ∈ (vkx_cleanup_buffer b).2 ∧
    (vkx_cleanup_image img).1.image = VK_NULL_HANDLE ∧
    (vkx_cleanup_image img).1.memory = VK_NULL_HANDLE ∧
    (vkx_cleanup_image img).1.view = VK_NULL_HANDLE ∧
    CleanupAction.destroyImage img.image ∈ (vkx_cleanup_image img).2 ∧
    CleanupAction.freeMemory img.memory ∈ (vkx_cleanup_image img).2 ∧
    (CleanupAction.destroyImageView img.view ∈ (vkx_cleanup_image img).2 ↔
      img.view ≠ VK_NULL_HANDLE) := by
  refine ⟨rfl, rfl, by simp [vkx_cleanup_buffer],
    by simp [vkx_cleanup_buffer], rfl, rfl, rfl,
    by simp [vkx_cleanup_image], by simp [vkx_cleanup_image], ?_⟩
  rw [vkx_cleanup_image]
  by_cases hv : img.view = VK_NULL_HANDLE
  · simp [hv]
  · simp [hv]

/-! ## Image layout transitions (`vkx_transition_image_layout`,
`src/vkx/vkx_core.c`) -/

/-- `VK_IMAGE_LAYOUT_UNDEFINED = 0`. -/
def VK_IMAGE_LAYOUT_UNDEFINED : Nat := 0

/-- `VK_IMAGE_LAYOUT_COLOR_ATTACHMENT_OPTIMAL = 2`. -/
def VK_IMAGE_LAYOUT_COLOR_ATTACHMENT_OPTIMAL : Nat := 2

/-- `VK_IMAGE_LAYOUT_DEPTH_STENCIL_ATTACHMENT_OPTIMAL = 3`. -/
def VK_IMAGE_LAYOUT_DEPTH_STENCIL_ATTACHMENT_OPTIMAL : Nat := 3

/-- `VK_IMAGE_LAYOUT_SHADER_READ_ONLY_OPTIMAL = 5`. -/
def VK_IMAGE_LAYOUT_SHADER_READ_ONLY_OPTIMAL : Nat := 5

/-- `VK_IMAGE_LAYOUT_TRANSFER_DST_OPTIMAL = 7`. -/
def VK_IMAGE_LAYOUT_TRANSFER_DST_OPTIMAL : Nat := 7

/-- `VK_IMAGE_LAYOUT_PRESENT_SRC_KHR = 1000001002`. -/
def VK_IMAGE_LAYOUT_PRESENT_SRC_KHR : Nat := 1000001002

/-- `VK_FORMAT_D32_SFLOAT_S8_UINT = 130`. -/
def VK_FORMAT_D32_SFLOAT_S8_UINT : Nat := 130

/-- `VK_FORMAT_D24_UNORM_S8_UINT = 129`. -/
def VK_FORMAT_D24_UNORM_S8_UINT : Nat := 129

/-- `VK_IMAGE_ASPECT_COLOR_BIT = 0x1`. -/
def VK_IMAGE_ASPECT_COLOR_BIT : Nat := 0x1

/-- `VK_IMAGE_ASPECT_DEPTH_BIT = 0x2`. -/
def VK_IMAGE_ASPECT_DEPTH_BIT : Nat := 0x2

/-- `VK_IMAGE_ASPECT_STENCIL_BIT = 0x4`. -/
def VK_IMAGE_ASPECT_STENCIL_BIT : Nat := 0x4

/-- `VK_PIPELINE_STAGE_TOP_OF_PIPE_BIT = 0x1`. -/
def VK_PIPELINE_STAGE_TOP_OF_PIPE_BIT : Nat := 0x1

/-- `VK_PIPELINE_STAGE_FRAGMENT_SHADER_BIT = 0x80`. -/
def VK_PIPELINE_STAGE_FRAGMENT_SHADER_BIT : Nat := 0x80

/-- `VK_PIPELINE_STAGE_EARLY_FRAGMENT_TESTS_BIT = 0x100`. -/
def VK_PIPELINE_STAGE_EARLY_FRAGMENT_TESTS_BIT : Nat := 0x100

/-- `VK_PIPELINE_STAGE_COLOR_ATTACHMENT_OUTPUT_BIT = 0x400`. -/
def VK_PIPELINE_STAGE_COLOR_ATTACHMENT_OUTPUT_BIT : Nat := 0x400

/-- `VK_PIPELINE_STAGE_TRANSFER_BIT = 0x1000`. -/
def VK_PIPELINE_STAGE_TRANSFER_BIT : Nat := 0x1000

/-- `VK_PIPELINE_STAGE_BOTTOM_OF_PIPE_BIT = 0x2000`. -/
def VK_PIPELINE_STAGE_BOTTOM_OF_PIPE_BIT : Nat := 0x2000

/-- `VK_ACCESS_SHADER_READ_BIT = 0x20`. -/
def VK_ACCESS_SHADER_READ_BIT : Nat := 0x20

/-- `VK_ACCESS_COLOR_ATTACHMENT_WRITE_BIT = 0x100`. -/
def VK_ACCESS_COLOR_ATTACHMENT_WRITE_BIT : Nat := 0x100

/-- `VK_ACCESS_DEPTH_STENCIL_ATTACHMENT_READ_BIT = 0x200`. -/
def VK_ACCESS_DEPTH_STENCIL_ATTACHMENT_READ_BIT : Nat := 0x200

/-- `VK_ACCESS_DEPTH_STENCIL_ATTACHMENT_WRITE_BIT = 0x400`. -/
def VK_ACCESS_DEPTH_STENCIL_ATTACHMENT_WRITE_BIT : Nat := 0x400

/-- `VK_ACCESS_TRANSFER_WRITE_BIT = 0x1000`. -/
def VK_ACCESS_TRANSFER_WRITE_BIT : Nat := 0x1000

/-- `VK_ACCESS_MEMORY_READ_BIT = 0x8000`. -/
def VK_ACCESS_MEMORY_READ_BIT : Nat := 0x8000

/-- `vkx_has_stencil_component` (`src/vkx/vkx_core.c`). -/
def vkx_has_stencil_component (format : Nat) : Bool :=
  format = VK_FORMAT_D32_SFLOAT_S8_UINT ||
  format = VK_FORMAT_D24_UNORM_S8_UINT

/-- The barrier fields `vkx_transition_image_layout` fills in before recording
`vkCmdPipelineBarrier2`. -/
structure BarrierConfig where
  aspectMask : Nat
  srcStageMask : Nat
  srcAccessMask : Nat
  dstStageMask : Nat
  dstAccessMask : Nat
deriving DecidableEq

/-- `vkx_transition_image_layout` (`src/vkx/vkx_core.c`): compute the aspect
mask from the destination layout, then pick stage/access masks from the
`(old_layout, new_layout)` pair in the order of the source's if-chain; `none`
models the fatal "Unsupported layout transition" exit. -/
def vkx_transition_image_layout (format old_layout new_layout : Nat) :
    Option BarrierConfig :=
  let aspectMask :=
    if new_layout = VK_IMAGE_LAYOUT_DEPTH_STENCIL_ATTACHMENT_OPTIMAL then
      if vkx_has_stencil_component format then
        VK_IMAGE_ASPECT_DEPTH_BIT ||| VK_IMAGE_ASPECT_STENCIL_BIT
      else VK_IMAGE_ASPECT_DEPTH_BIT
    else VK_IMAGE_ASPECT_COLOR_BIT
  if old_layout = VK_IMAGE_LAYOUT_UNDEFINED ∧
      new_layout = VK_IMAGE_LAYOUT_TRANSFER_DST_OPTIMAL then
    some ⟨aspectMask, VK_PIPELINE_STAGE_TOP_OF_PIPE_BIT, 0,
      VK_PIPELINE_STAGE_TRANSFER_BIT, VK_ACCESS_TRANSFER_WRITE_BIT⟩
  else if old_layout = VK_IMAGE_LAYOUT_UNDEFINED ∧
      new_layout = VK_IMAGE_LAYOUT_SHADER_READ_ONLY_OPTIMAL then
    some ⟨aspectMask, VK_PIPELINE_STAGE_TOP_OF_PIPE_BIT, 0,
      VK_PIPELINE_STAGE_TRANSFER_BIT, VK_ACCESS_TRANSFER_WRITE_BIT⟩
  else if old_layout = VK_IMAGE_LAYOUT_UNDEFINED ∧
      new_layout = VK_IMAGE_LAYOUT_DEPTH_STENCIL_ATTACHMENT_OPTIMAL then
    some ⟨aspectMask, VK_PIPELINE_STAGE_TOP_OF_PIPE_BIT, 0,
      VK_PIPELINE_STAGE_EARLY_FRAGMENT_TESTS_BIT,
      VK_ACCESS_DEPTH_STENCIL_ATTACHMENT_READ_BIT |||
        VK_ACCESS_DEPTH_STENCIL_ATTACHMENT_WRITE_BIT⟩
  else if old_layout = VK_IMAGE_LAYOUT_TRANSFER_DST_OPTIMAL ∧
      new_layout = VK_IMAGE_LAYOUT_SHADER_READ_ONLY_OPTIMAL then
    some ⟨aspectMask, VK_PIPELINE_STAGE_TRANSFER_BIT,
      VK_ACCESS_TRANSFER_WRITE_BIT,
      VK_PIPELINE_STAGE_FRAGMENT_SHADER_BIT, VK_ACCESS_SHADER_READ_BIT⟩
  else if old_layout = VK_IMAGE_LAYOUT_PRESENT_SRC_KHR ∧
      new_layout = VK_IMAGE_LAYOUT_COLOR_ATTACHMENT_OPTIMAL then
    some ⟨aspectMask, VK_PIPELINE_STAGE_TOP_OF_PIPE_BIT, 0,
      VK_PIPELINE_STAGE_COLOR_ATTACHMENT_OUTPUT_BIT,
      VK_ACCESS_COLOR_ATTACHMENT_WRITE_BIT⟩
  else if old_layout = VK_IMAGE_LAYOUT_COLOR_ATTACHMENT_OPTIMAL ∧
      new_layout = VK_IMAGE_LAYOUT_PRESENT_SRC_KHR then
    some ⟨aspectMask, VK_PIPELINE_STAGE_COLOR_ATTACHMENT_OUTPUT_BIT,
      VK_ACCESS_COLOR_ATTACHMENT_WRITE_BIT,
      VK_PIPELINE_STAGE_BOTTOM_OF_PIPE_BIT, VK_ACCESS_MEMORY_READ_BIT⟩
  else if old_layout = VK_IMAGE_LAYOUT_COLOR_ATTACHMENT_OPTIMAL ∧
      new_layout = VK_IMAGE_LAYOUT_SHADER_READ_ONLY_OPTIMAL then
    some ⟨aspectMask, VK_PIPELINE_STAGE_TOP_OF_PIPE_BIT, 0,
      VK_PIPELINE_STAGE_COLOR_ATTACHMENT_OUTPUT_BIT,
      VK_ACCESS_MEMORY_READ_BIT⟩
  else if old_layout = VK_IMAGE_LAYOUT_SHADER_READ_ONLY_OPTIMAL ∧
      new_layout = VK_IMAGE_LAYOUT_COLOR_ATTACHMENT_OPTIMAL then
    some ⟨aspectMask, VK_PIPELINE_STAGE_FRAGMENT_SHADER_BIT,
      VK_ACCESS_MEMORY_READ_BIT,
      VK_PIPELINE_STAGE_COLOR_ATTACHMENT_OUTPUT_BIT,
      VK_ACCESS_COLOR_ATTACHMENT_WRITE_BIT⟩
  else
    none

/-- The eight `(old_layout, new_layout)` pairs accepted by
`vkx_transition_image_layout`, in source order. -/
def supportedLayoutTransitions : List (Nat × Nat) :=
  [(VK_IMAGE_LAYOUT_UNDEFINED, VK_IMAGE_LAYOUT_TRANSFER_DST_OPTIMAL),
   (VK_IMAGE_LAYOUT_UNDEFINED, VK_IMAGE_LAYOUT_SHADER_READ_ONLY_OPTIMAL),
   (VK_IMAGE_LAYOUT_UNDEFINED,
     VK_IMAGE_LAYOUT_DEPTH_STENCIL_ATTACHMENT_OPTIMAL),
   (VK_IMAGE_LAYOUT_TRANSFER_DST_OPTIMAL,
     VK_IMAGE_LAYOUT_SHADER_READ_ONLY_OPTIMAL),
   (VK_IMAGE_LAYOUT_PRESENT_SRC_KHR,
     VK_IMAGE_LAYOUT_COLOR_ATTACHMENT_OPTIMAL),
   (VK_IMAGE_LAYOUT_COLOR_ATTACHMENT_OPTIMAL,
     VK_IMAGE_LAYOUT_PRESENT_SRC_KHR),
   (VK_IMAGE_LAYOUT_COLOR_ATTACHMENT_OPTIMAL,
     VK_IMAGE_LAYOUT_SHADER_READ_ONLY_OPTIMAL),
   (VK_IMAGE_LAYOUT_SHADER_READ_ONLY_OPTIMAL,
     VK_IMAGE_LAYOUT_COLOR_ATTACHMENT_OPTIMAL)]

set_option maxHeartbeats 2000000 in
/-- C10: `vkx_transition_image_layout` reaches the fatal "Unsupported layout
transition" branch exactly for the `(old_layout, new_layout)` pairs outside
the eight supported ones, independently of the image format. -/
theorem c10_transition_supported_pairs (format old_layout new_layout : Nat) :
    vkx_transition_image_layout format old_layout new_layout = none ↔
      (old_layout, new_layout) ∉ supportedLayoutTransitions := by
  rw [vkx_transition_image_layout]
  simp only [supportedLayoutTransitions, List.mem_cons, List.not_mem_nil,
    or_false, Prod.mk.injEq, not_or]
  split_ifs with h1 h2 h3 h4 h5 h6 h7 h8
  · exact iff_of_false (by simp) (fun hr => hr.1 h1)
  · exact iff_of_false (by simp) (fun hr => hr.2.1 h2)
  · exact iff_of_false (by simp) (fun hr => hr.2.2.1 h3)
  · exact iff_of_false (by simp) (fun hr => hr.2.2.2.1 h4)
  · exact iff_of_false (by simp) (fun hr => hr.2.2.2.2.1 h5)
  · exact iff_of_false (by simp) (fun hr => hr.2.2.2.2.2.1 h6)
  · exact iff_of_false (by simp) (fun hr => hr.2.2.2.2.2.2.1 h7)
  · exact iff_of_false (by simp) (fun hr => hr.2.2.2.2.2.2.2 h8)
  · exact iff_of_true rfl ⟨h1, h2, h3, h4, h5, h6, h7, h8⟩
